import Mathlib

/-!
Shallow embedding of the GSM modem driver interface
(src/targets/all/gsm/Modem.h) and the socket-pool behaviour it specifies.
Machine integers are modelled as Nat/Int with explicit truncation where the
source packs bitfields; C++ assertions are modelled as Option-returning
functions that yield none exactly when the asserted condition fails.
-/

set_option linter.unusedVariables false

namespace GsmModem

/-- Modelled from the spec: the kernel Timeout primitive is outside this
repository (kernel/kernel.h is an excluded external collaborator). Per the
spec, waits carry a timeout that is relative, absolute or the infinite
sentinel, and the configuration surface accepts "a relative duration or an
'infinite' sentinel", so the infinite sentinel satisfies the setters'
IsRelative assertion. -/
inductive Timeout where
  | relative (ticks : Nat)
  | absolute (time : Nat)
  | infinite
deriving DecidableEq, Repr

def Timeout.IsRelative : Timeout → Bool
  | .relative _ => true
  | .absolute _ => false
  | .infinite => true

/-- Modelled from the spec: the kernel constructor Timeout::Seconds builds a
relative duration; time units are abstracted to seconds. -/
def Timeout.Seconds (n : Nat) : Timeout := .relative n

/-- enum struct ModemStatus (Modem.h lines 24-30). -/
inductive ModemStatus where
  | Ok
  | PowerOnFailure
  | AutoBaudFailure
  | CommandError
deriving DecidableEq, Repr

/-- enum struct GsmStatus (Modem.h lines 32-38). -/
inductive GsmStatus where
  | Ok
  | NoNetwork
  | Roaming
  | Searching
deriving DecidableEq, Repr

/-- enum struct SimStatus (Modem.h lines 40-46). -/
inductive SimStatus where
  | Ok
  | NotInserted
  | Locked
  | BadPin
deriving DecidableEq, Repr

/-- enum struct TcpStatus (Modem.h lines 48-54). -/
inductive TcpStatus where
  | Ok
  | GprsError
  | TlsError
  | ConnectionError
deriving DecidableEq, Repr

/-- class NetworkInfo (Modem.h lines 56-76): a union of bitfields
mcc:10, mnc:10, mncDigits:4 with an unsigned raw view; modelled by the raw
machine word, with the bitfields as arithmetic on it. -/
structure NetworkInfo where
  raw : Nat
deriving DecidableEq, Repr

/-- constexpr NetworkInfo(mcc, mnc, mncDigits): each bitfield takes its
argument truncated to the field width (10, 10 and 4 bits). -/
def NetworkInfo.make (mcc mnc mncDigits : Nat) : NetworkInfo :=
  ⟨mcc % 1024 + (mnc % 1024) * 1024 + (mncDigits % 16) * 1048576⟩

/-- constexpr NetworkInfo() : raw(0). -/
def NetworkInfo.default : NetworkInfo := ⟨0⟩

def NetworkInfo.Mcc (n : NetworkInfo) : Nat := n.raw % 1024

def NetworkInfo.Mnc (n : NetworkInfo) : Nat := n.raw / 1024 % 1024

def NetworkInfo.MncDigits (n : NetworkInfo) : Nat := n.raw / 1048576 % 16

/-- Modelled from the spec: Socket.h is a repository file not present under
src/. Per the spec a Socket carries a modem-assigned channel number, a
secure (TLS) flag and an allocation flag; pool linkage is represented by
membership in the modem's socket list. -/
structure Socket where
  channel : Nat
  secure : Bool
  allocated : Bool
deriving DecidableEq, Repr

def Socket.IsAllocated (s : Socket) : Bool := s.allocated

def Socket.IsSecure (s : Socket) : Bool := s.secure

/-- enum struct Modem::ATResult : int8_t (Modem.h lines 110-119). -/
inductive ATResult where
  | OK
  | Error
  | Timeout
  | Failure
  | Pending
  | PendingWasOK
  | PendingWaitOK
deriving DecidableEq, Repr

/-- The int8_t value of each ATResult enumerator: OK..Failure are the default
consecutive values 0..3, the pending sub-states are the explicit negative
values -1, -2, -3. -/
def ATResult.toInt : ATResult → Int
  | .OK => 0
  | .Error => 1
  | .Timeout => 2
  | .Failure => 3
  | .Pending => -1
  | .PendingWasOK => -2
  | .PendingWaitOK => -3

/-- The mutable fields of class Modem (Modem.h lines 197-237). Pointers are
modelled as Option of an identifier: atTask holds the owner task identity,
atTransmitSock and rxSock hold socket identifiers. The AsyncDelegate
response handler is abstracted to a plain identifier. Signal flags are
the bitmask field, bits as in the Signal enum. -/
structure ModemState where
  signals : Nat
  process : Bool
  atResult : ATResult
  atTask : Option Nat
  atNextTimeout : Timeout
  atResponse : Nat
  atTransmitSock : Option Nat
  atTransmitLen : Nat
  rxSock : Option Nat
  rxLen : Nat
  modemStatus : ModemStatus
  gsmStatus : GsmStatus
  simStatus : SimStatus
  tcpStatus : TcpStatus
  netInfo : NetworkInfo
  rssi : Int
  atTimeout : Timeout
  connectTimeout : Timeout
  disconnectTimeout : Timeout
  powerOffTimeout : Timeout
  sockets : List Socket
deriving Repr

/-- Signal::TaskActive = BIT(0). -/
def Signal.TaskActive : Nat := 1

/-- Signal::RxTaskActive = BIT(1). -/
def Signal.RxTaskActive : Nat := 2

/-- Signal::NetworkActive = BIT(2). -/
def Signal.NetworkActive : Nat := 4

/-- Signal::ATLock = BIT(4). -/
def Signal.ATLock : Nat := 16

namespace Modem

/-- bool IsActive() const: tests the TaskActive bit of signals. -/
def IsActive (m : ModemState) : Bool := (m.signals &&& Signal.TaskActive) != 0

/-- The state of a freshly constructed Modem, from the member default
values (Modem.h lines 203-237). Members the source leaves
default-constructed or indeterminate (atNextTimeout, atResponse,
atTransmitSock, atTransmitLen, rxSock) are given arbitrary defaults; no
claim depends on them. -/
def init : ModemState where
  signals := 0
  process := false
  atResult := ATResult.OK
  atTask := none
  atNextTimeout := Timeout.relative 0
  atResponse := 0
  atTransmitSock := none
  atTransmitLen := 0
  rxSock := none
  rxLen := 0
  modemStatus := ModemStatus.Ok
  gsmStatus := GsmStatus.Ok
  simStatus := SimStatus.Ok
  tcpStatus := TcpStatus.Ok
  netInfo := NetworkInfo.default
  rssi := 0
  atTimeout := Timeout.Seconds 5
  connectTimeout := Timeout.Seconds 30
  disconnectTimeout := Timeout.Seconds 10
  powerOffTimeout := Timeout.infinite
  sockets := []

/-- bool NextATTimeout(Timeout) (Modem.h line 125): ASSERT that the current
task (parameter cur) is the recorded lock owner, then set atNextTimeout and
return false. The ASSERT is modelled as Option.none on violation. -/
def NextATTimeout (cur : Nat) (m : ModemState) (t : Timeout) :
    Option (Bool × ModemState) :=
  if m.atTask = some cur then some (false, { m with atNextTimeout := t })
  else none

/-- bool NextATResponse(AsyncDelegate) (Modem.h line 128): ASSERT ownership,
set atResponse, return false. -/
def NextATResponse (cur : Nat) (m : ModemState) (handler : Nat) :
    Option (Bool × ModemState) :=
  if m.atTask = some cur then some (false, { m with atResponse := handler })
  else none

/-- bool NextATTransmit(Socket and length) (Modem.h line 131): ASSERT
ownership, set atTransmitSock and atTransmitLen, return false. -/
def NextATTransmit (cur : Nat) (m : ModemState) (sock : Nat) (len : Nat) :
    Option (Bool × ModemState) :=
  if m.atTask = some cur then
    some (false, { m with atTransmitSock := some sock, atTransmitLen := len })
  else none

/-- void ATComplete() (Modem.h line 133): ASSERT(atResult == Pending), then
set atResult to OK. -/
def ATComplete (m : ModemState) : Option ModemState :=
  if m.atResult = ATResult.Pending then some { m with atResult := ATResult.OK }
  else none

/-- void ATTimeout(Timeout) setter (Modem.h line 97): ASSERT IsRelative,
then assign atTimeout. -/
def SetATTimeout (m : ModemState) (t : Timeout) : Option ModemState :=
  if t.IsRelative = true then some { m with atTimeout := t } else none

/-- void ConnectTimeout(Timeout) setter (Modem.h line 99). -/
def SetConnectTimeout (m : ModemState) (t : Timeout) : Option ModemState :=
  if t.IsRelative = true then some { m with connectTimeout := t } else none

/-- void DisconnectTimeout(Timeout) setter (Modem.h line 101). -/
def SetDisconnectTimeout (m : ModemState) (t : Timeout) : Option ModemState :=
  if t.IsRelative = true then some { m with disconnectTimeout := t } else none

/-- void PowerOffTimeout(Timeout) setter (Modem.h line 103). -/
def SetPowerOffTimeout (m : ModemState) (t : Timeout) : Option ModemState :=
  if t.IsRelative = true then some { m with powerOffTimeout := t } else none

/-- Socket* FindSocket(uint8_t channel) (Modem.h line 186): first socket in
the pool that is allocated and has the given channel, else null. -/
def FindSocket (m : ModemState) (channel : Nat) : Option Socket :=
  m.sockets.find? (fun s => s.IsAllocated && s.channel == channel)

/-- Socket* FindSocket(uint8_t channel, bool secure) (Modem.h line 187). -/
def FindSocketSecure (m : ModemState) (channel : Nat) (secure : Bool) :
    Option Socket :=
  m.sockets.find?
    (fun s => s.IsAllocated && s.IsSecure == secure && s.channel == channel)

/-- Modelled from the spec: the body of Modem::CreateSocket is not in the
header. Per the spec it reserves a channel via the vendor allocation hook
(its outcome is the alloc argument: the reserved channel, or none when the
hook rejects), constructs a Socket bound to that channel and security flag,
links it into the pool and returns it; on rejection it returns the null
indicator without mutating the pool. The host span and port do not enter
the pool bookkeeping. -/
def CreateSocket (alloc : Option Nat) (host port : Nat) (tls : Bool)
    (pool : List Socket) : Option Socket × List Socket :=
  match alloc with
  | none => (none, pool)
  | some ch => (some (Socket.mk ch tls true), Socket.mk ch tls true :: pool)

/-- Modelled from the spec: the body of Modem::ReleaseSocket is not in the
header. Per the spec it returns a socket to the free pool without
destroying bookkeeping: the socket (addressed by its position) loses its
allocation flag but stays linked. -/
def ReleaseSocket : List Socket → Nat → List Socket
  | [], _ => []
  | s :: rest, 0 => { s with allocated := false } :: rest
  | s :: rest, n + 1 => s :: ReleaseSocket rest n

/-- Modelled from the spec: the body of Modem::DestroySocket is not in the
header. Per the spec it fully tears the socket down, unlinking it from the
pool. -/
def DestroySocket : List Socket → Nat → List Socket
  | [], _ => []
  | _ :: rest, 0 => rest
  | s :: rest, n + 1 => s :: DestroySocket rest n

/-- virtual async(PowerOnImpl) async_def_return(true) (Modem.h line 162):
the default hook immediately returns true and touches no state. -/
def PowerOnImpl (m : ModemState) : Bool × ModemState := (true, m)

/-- virtual async(PowerOffImpl) async_def_return(true) (Modem.h line 163). -/
def PowerOffImpl (m : ModemState) : Bool × ModemState := (true, m)

/-- virtual async(StartImpl) async_def_return(true) (Modem.h line 164). -/
def StartImpl (m : ModemState) : Bool × ModemState := (true, m)

/-- virtual async(UnlockSimImpl) async_def_return(true) (Modem.h line 165). -/
def UnlockSimImpl (m : ModemState) : Bool × ModemState := (true, m)

/-- virtual async(ConnectNetworkImpl) async_def_return(true) (line 166). -/
def ConnectNetworkImpl (m : ModemState) : Bool × ModemState := (true, m)

/-- virtual async(DisconnectNetworkImpl) async_def_return(true) (line 167). -/
def DisconnectNetworkImpl (m : ModemState) : Bool × ModemState := (true, m)

/-- virtual async(StopImpl) async_def_return(true) (Modem.h line 168). -/
def StopImpl (m : ModemState) : Bool × ModemState := (true, m)

/-- virtual async(OnEvent, FNV1a id) async_def_return(true) (line 169): the
default unsolicited-event hook accepts every event id, returning true. -/
def OnEvent (m : ModemState) (id : Nat) : Bool × ModemState := (true, m)

end Modem

/-- Result of a bounded wait. -/
inductive WaitResult where
  | ok
  | timeout
deriving DecidableEq, Repr

/-- Modelled from the spec: the body of Modem::WaitForIdle is not in the
header. Per the spec it is an async wait gated on the idle signal flag,
bounded by the given timeout: it succeeds when the flag is observed within
the bound and otherwise resolves with a timeout failure instead of
blocking. The scheduler is abstracted to a trace giving the flag's value at
each tick up to the bound (a relative timeout of t ticks). -/
def Modem.WaitForIdle (idleSignal : Nat → Bool) (t : Nat) : WaitResult :=
  if (List.range (t + 1)).any idleSignal then WaitResult.ok
  else WaitResult.timeout

/-- Modelled from the spec: the body of Modem::WaitForPowerOff is not in the
header; same bounded wait, gated on the power-off signal flag. -/
def Modem.WaitForPowerOff (powerOffSignal : Nat → Bool) (t : Nat) : WaitResult :=
  if (List.range (t + 1)).any powerOffSignal then WaitResult.ok
  else WaitResult.timeout

/-- No allocated pair of sockets shares both channel and secure flag. -/
def NoAllocatedPair (a b : Socket) : Prop :=
  ¬(a.IsAllocated = true ∧ b.IsAllocated = true ∧
    a.channel = b.channel ∧ a.IsSecure = b.IsSecure)

/-- The socket-pool invariant: at most one allocated socket per
(channel, secure) pair. -/
def UniqueChannels (pool : List Socket) : Prop :=
  pool.Pairwise NoAllocatedPair

/-- Modelled from the spec: the vendor allocation hook reserves a free
channel, i.e. one not held by any allocated socket with the same secure
flag. -/
def FreshChannel (pool : List Socket) (ch : Nat) (sec : Bool) : Prop :=
  ∀ s ∈ pool, s.IsAllocated = true → ¬(s.channel = ch ∧ s.IsSecure = sec)

/-- The socket pools reachable from the empty pool through CreateSocket
(with the hook reserving a free channel), ReleaseSocket and
DestroySocket. -/
inductive Reach : List Socket → Prop where
  | init : Reach []
  | create (pool : List Socket) (ch host port : Nat) (sec : Bool) :
      Reach pool → FreshChannel pool ch sec →
      Reach (Modem.CreateSocket (some ch) host port sec pool).2
  | release (pool : List Socket) (i : Nat) :
      Reach pool → Reach (Modem.ReleaseSocket pool i)
  | destroy (pool : List Socket) (i : Nat) :
      Reach pool → Reach (Modem.DestroySocket pool i)

/-- Claim C1: only the holder of the AT lock may configure the next call:
NextATTimeout, NextATResponse and NextATTransmit each assert that the
current task is the recorded lock owner, and under that precondition each
sets exactly its own next-call field and returns false, for every argument
value. -/
theorem nextAT_config_requires_owner (cur : Nat) (m : ModemState)
    (t : Timeout) (handler sock len : Nat) (hown : m.atTask = some cur) :
    Modem.NextATTimeout cur m t = some (false, { m with atNextTimeout := t }) ∧
    Modem.NextATResponse cur m handler =
      some (false, { m with atResponse := handler }) ∧
    Modem.NextATTransmit cur m sock len =
      some (false, { m with atTransmitSock := some sock, atTransmitLen := len }) := by
  refine ⟨?_, ?_, ?_⟩ <;>
    simp [Modem.NextATTimeout, Modem.NextATResponse, Modem.NextATTransmit, hown]

/-- Witness for C1 at a concrete owner task and state. -/
theorem nextAT_config_requires_owner_inst :
    Modem.NextATTimeout 7 { Modem.init with atTask := some 7 } (Timeout.relative 3) = some (false, { Modem.init with atTask := some 7, atNextTimeout := Timeout.relative 3 }) ∧
    Modem.NextATResponse 7 { Modem.init with atTask := some 7 } 42 = some (false, { Modem.init with atTask := some 7, atResponse := 42 }) ∧
    Modem.NextATTransmit 7 { Modem.init with atTask := some 7 } 2 99 = some (false, { Modem.init with atTask := some 7, atTransmitSock := some 2, atTransmitLen := 99 }) :=
  nextAT_config_requires_owner 7 { Modem.init with atTask := some 7 }
    (Timeout.relative 3) 42 2 99 rfl

/-- Claim C2: ATResult encodes the four terminal classifications as the
non-negative int8_t values 0..3 and the three pending sub-states as the
negative values -1, -2, -3 (a value is negative exactly when it is one of
the pending sub-states); ATComplete asserts the result is exactly Pending
and under that precondition sets it to OK, leaving all other state
unchanged. -/
theorem atResult_encoding_and_complete (m : ModemState)
    (hp : m.atResult = ATResult.Pending) :
    ATResult.toInt ATResult.OK = 0 ∧
    ATResult.toInt ATResult.Error = 1 ∧
    ATResult.toInt ATResult.Timeout = 2 ∧
    ATResult.toInt ATResult.Failure = 3 ∧
    ATResult.toInt ATResult.Pending = -1 ∧
    ATResult.toInt ATResult.PendingWasOK = -2 ∧
    ATResult.toInt ATResult.PendingWaitOK = -3 ∧
    (∀ r : ATResult, r.toInt < 0 ↔
      (r = ATResult.Pending ∨ r = ATResult.PendingWasOK ∨
        r = ATResult.PendingWaitOK)) ∧
    Modem.ATComplete m = some { m with atResult := ATResult.OK } := by
  refine ⟨rfl, rfl, rfl, rfl, rfl, rfl, rfl, ?_, ?_⟩
  · intro r; cases r <;> decide
  · simp [Modem.ATComplete, hp]

/-- Witness for C2 at a concrete pending state. -/
theorem atResult_encoding_and_complete_inst :
    Modem.ATComplete { Modem.init with atResult := ATResult.Pending } =
      some { { Modem.init with atResult := ATResult.Pending } with
              atResult := ATResult.OK } :=
  (atResult_encoding_and_complete
    { Modem.init with atResult := ATResult.Pending } rfl).2.2.2.2.2.2.2.2

/-- Claim C5: when the vendor allocation hook rejects the request, for
every host, port and secure flag, CreateSocket returns the null indicator
and leaves the socket pool exactly as it was. -/
theorem createSocket_reject_no_mutation (host port : Nat) (tls : Bool)
    (pool : List Socket) :
    Modem.CreateSocket none host port tls pool = (none, pool) := rfl

/-- Claim C7: each of the four operation timeouts accepts any relative
duration and the infinite sentinel; the setter stores exactly the given
value in its own field, leaving the other three timeouts (and all other
state) unchanged. -/
theorem timeout_setters_independent (m : ModemState) (t : Timeout)
    (ht : (∃ n, t = Timeout.relative n) ∨ t = Timeout.infinite) :
    Modem.SetATTimeout m t = some { m with atTimeout := t } ∧
    Modem.SetConnectTimeout m t = some { m with connectTimeout := t } ∧
    Modem.SetDisconnectTimeout m t = some { m with disconnectTimeout := t } ∧
    Modem.SetPowerOffTimeout m t = some { m with powerOffTimeout := t } := by
  have hrel : t.IsRelative = true := by
    rcases ht with ⟨n, rfl⟩ | rfl <;> rfl
  refine ⟨?_, ?_, ?_, ?_⟩ <;>
    simp [Modem.SetATTimeout, Modem.SetConnectTimeout,
      Modem.SetDisconnectTimeout, Modem.SetPowerOffTimeout, hrel]

/-- Witness for C7 at the infinite sentinel. -/
theorem timeout_setters_independent_inst :
    Modem.SetATTimeout Modem.init Timeout.infinite =
      some { Modem.init with atTimeout := Timeout.infinite } ∧
    Modem.SetConnectTimeout Modem.init Timeout.infinite =
      some { Modem.init with connectTimeout := Timeout.infinite } ∧
    Modem.SetDisconnectTimeout Modem.init Timeout.infinite =
      some { Modem.init with disconnectTimeout := Timeout.infinite } ∧
    Modem.SetPowerOffTimeout Modem.init Timeout.infinite =
      some { Modem.init with powerOffTimeout := Timeout.infinite } :=
  timeout_setters_independent Modem.init Timeout.infinite (Or.inr rfl)

/-- Claim C8: every default lifecycle and event hook returns success (true)
for every input and every modem state, modifying nothing. -/
theorem default_hooks_succeed :
    ∀ (m : ModemState) (id : Nat),
      Modem.PowerOnImpl m = (true, m) ∧
      Modem.PowerOffImpl m = (true, m) ∧
      Modem.StartImpl m = (true, m) ∧
      Modem.UnlockSimImpl m = (true, m) ∧
      Modem.ConnectNetworkImpl m = (true, m) ∧
      Modem.DisconnectNetworkImpl m = (true, m) ∧
      Modem.StopImpl m = (true, m) ∧
      Modem.OnEvent m id = (true, m) :=
  fun m id => ⟨rfl, rfl, rfl, rfl, rfl, rfl, rfl, rfl⟩

/-- Claim C9: NetworkInfo packs mcc into 10 bits, mnc into 10 bits and the
significant-digit count into 4 bits of one machine word: the accessors of
NetworkInfo.make mcc mnc d return mcc mod 2^10, mnc mod 2^10 and d mod 2^4,
and the default-constructed value reads 0 on all three. (The class exposes
no mutating operation, so a NetworkInfo value is immutable after
construction.) -/
theorem networkInfo_packing (mcc mnc d : Nat) :
    (NetworkInfo.make mcc mnc d).Mcc = mcc % 1024 ∧
    (NetworkInfo.make mcc mnc d).Mnc = mnc % 1024 ∧
    (NetworkInfo.make mcc mnc d).MncDigits = d % 16 ∧
    NetworkInfo.default.Mcc = 0 ∧
    NetworkInfo.default.Mnc = 0 ∧
    NetworkInfo.default.MncDigits = 0 := by
  refine ⟨?_, ?_, ?_, rfl, rfl, rfl⟩ <;>
    simp [NetworkInfo.make, NetworkInfo.Mcc, NetworkInfo.Mnc,
      NetworkInfo.MncDigits] <;> omega

/-- Claim C10: a freshly constructed Modem is quiescent: all four status
fields read Ok, no signal flag is set (so IsActive is false), Rssi is 0,
NetworkInfo is the all-zero value, and the timeouts default to 5 s (AT),
30 s (connect), 10 s (disconnect) and the infinite sentinel (power-off). -/
theorem init_state_quiescent :
    Modem.init.modemStatus = ModemStatus.Ok ∧
    Modem.init.gsmStatus = GsmStatus.Ok ∧
    Modem.init.simStatus = SimStatus.Ok ∧
    Modem.init.tcpStatus = TcpStatus.Ok ∧
    Modem.init.signals = 0 ∧
    Modem.IsActive Modem.init = false ∧
    Modem.init.rssi = 0 ∧
    Modem.init.netInfo = NetworkInfo.default ∧
    Modem.init.atTimeout = Timeout.Seconds 5 ∧
    Modem.init.connectTimeout = Timeout.Seconds 30 ∧
    Modem.init.disconnectTimeout = Timeout.Seconds 10 ∧
    Modem.init.powerOffTimeout = Timeout.infinite :=
  ⟨rfl, rfl, rfl, rfl, rfl, rfl, rfl, rfl, rfl, rfl, rfl, rfl⟩

/-- Claim C3: for every state of the socket pool and channel c, FindSocket c
returns null or a socket of the pool that is allocated with channel c, and
FindSocketSecure c secure returns null or a socket of the pool that is
allocated with channel c and the given secure flag; neither ever returns
an unallocated socket. -/
theorem findSocket_only_allocated (m : ModemState) (c : Nat) (b : Bool)
    (s1 s2 : Socket) (h1 : Modem.FindSocket m c = some s1)
    (h2 : Modem.FindSocketSecure m c b = some s2) :
    (s1 ∈ m.sockets ∧ s1.IsAllocated = true ∧ s1.channel = c) ∧
    (s2 ∈ m.sockets ∧ s2.IsAllocated = true ∧ s2.IsSecure = b ∧
      s2.channel = c) := by
  constructor
  · have hm := List.mem_of_find?_eq_some h1
    have hp := List.find?_some h1
    simp only [Bool.and_eq_true, beq_iff_eq] at hp
    exact ⟨hm, hp.1, hp.2⟩
  · have hm := List.mem_of_find?_eq_some h2
    have hp := List.find?_some h2
    simp only [Bool.and_eq_true, beq_iff_eq] at hp
    exact ⟨hm, hp.1.1, hp.1.2, hp.2⟩

/-- Witness for C3 on a concrete one-socket pool. -/
theorem findSocket_only_allocated_inst :
    (Socket.mk 3 false true ∈ ({ Modem.init with sockets := [Socket.mk 3 false true] } : ModemState).sockets ∧ (Socket.mk 3 false true).IsAllocated = true ∧ (Socket.mk 3 false true).channel = 3) ∧
    (Socket.mk 3 false true ∈ ({ Modem.init with sockets := [Socket.mk 3 false true] } : ModemState).sockets ∧ (Socket.mk 3 false true).IsAllocated = true ∧ (Socket.mk 3 false true).IsSecure = false ∧ (Socket.mk 3 false true).channel = 3) :=
  findSocket_only_allocated
    { Modem.init with sockets := [Socket.mk 3 false true] } 3 false
    (Socket.mk 3 false true) (Socket.mk 3 false true) rfl rfl

/-- Claim C6: WaitForIdle and WaitForPowerOff resolve with a timeout
failure whenever the gating signal flag is not raised within the bound t
(they never remain blocked past t), and they succeed only when the gating
flag is observed within the bound. -/
theorem waits_bounded_by_timeout (idle pwr : Nat → Bool) (t : Nat)
    (hidle : ∀ u, u ≤ t → idle u = false)
    (hpwr : ∀ u, u ≤ t → pwr u = false) :
    Modem.WaitForIdle idle t = WaitResult.timeout ∧
    Modem.WaitForPowerOff pwr t = WaitResult.timeout ∧
    (∀ (f : Nat → Bool) (s : Nat), Modem.WaitForIdle f s = WaitResult.ok →
      ∃ u, u ≤ s ∧ f u = true) ∧
    (∀ (f : Nat → Bool) (s : Nat), Modem.WaitForPowerOff f s = WaitResult.ok →
      ∃ u, u ≤ s ∧ f u = true) := by
  have hnone : ∀ (f : Nat → Bool) (s : Nat), (∀ u, u ≤ s → f u = false) →
      (List.range (s + 1)).any f = false := by
    intro f s hf
    rw [List.any_eq_false]
    intro u hu
    simp [hf u (Nat.lt_succ_iff.mp (List.mem_range.mp hu))]
  have hsome : ∀ (f : Nat → Bool) (s : Nat),
      (List.range (s + 1)).any f = true → ∃ u, u ≤ s ∧ f u = true := by
    intro f s hf
    rcases List.any_eq_true.mp hf with ⟨u, hu, hfu⟩
    exact ⟨u, Nat.lt_succ_iff.mp (List.mem_range.mp hu), hfu⟩
  refine ⟨?_, ?_, ?_, ?_⟩
  · simp [Modem.WaitForIdle, hnone idle t hidle]
  · simp [Modem.WaitForPowerOff, hnone pwr t hpwr]
  · intro f s hok
    unfold Modem.WaitForIdle at hok
    by_cases hc : (List.range (s + 1)).any f = true
    · exact hsome f s hc
    · simp [hc] at hok
  · intro f s hok
    unfold Modem.WaitForPowerOff at hok
    by_cases hc : (List.range (s + 1)).any f = true
    · exact hsome f s hc
    · simp [hc] at hok

/-- Witness for C6: with the gating flags never raised, both waits resolve
with the timeout failure at bound 1. -/
theorem waits_bounded_by_timeout_inst :
    Modem.WaitForIdle (fun u => false) 1 = WaitResult.timeout ∧
    Modem.WaitForPowerOff (fun u => false) 1 = WaitResult.timeout :=
  ⟨(waits_bounded_by_timeout (fun u => false) (fun u => false) 1
      (fun u hu => rfl) (fun u hu => rfl)).1,
   (waits_bounded_by_timeout (fun u => false) (fun u => false) 1
      (fun u hu => rfl) (fun u hu => rfl)).2.1⟩

/-- Every member of a pool after ReleaseSocket either was in the pool
already or is the released, now unallocated, socket. -/
lemma mem_releaseSocket {pool : List Socket} {i : Nat} {b : Socket}
    (hb : b ∈ Modem.ReleaseSocket pool i) :
    b ∈ pool ∨ b.IsAllocated = false := by
  induction pool generalizing i with
  | nil => simp [Modem.ReleaseSocket] at hb
  | cons s rest ih =>
    cases i with
    | zero =>
      simp only [Modem.ReleaseSocket, List.mem_cons] at hb
      rcases hb with hb | hb
      · right; rw [hb]; rfl
      · left; exact List.mem_cons_of_mem s hb
    | succ n =>
      simp only [Modem.ReleaseSocket, List.mem_cons] at hb
      rcases hb with hb | hb
      · left; rw [hb]; exact List.mem_cons_self s rest
      · rcases ih hb with h1 | h1
        · left; exact List.mem_cons_of_mem s h1
        · right; exact h1

/-- ReleaseSocket preserves the socket-pool uniqueness invariant. -/
lemma uniqueChannels_releaseSocket {pool : List Socket} {i : Nat}
    (h : UniqueChannels pool) :
    UniqueChannels (Modem.ReleaseSocket pool i) := by
  induction pool generalizing i with
  | nil => exact h
  | cons s rest ih =>
    rcases List.pairwise_cons.mp h with ⟨hhead, htail⟩
    cases i with
    | zero =>
      refine List.pairwise_cons.mpr ⟨?_, htail⟩
      intro b hb hcontra
      rcases hcontra with ⟨ha, _⟩
      simp [Socket.IsAllocated] at ha
    | succ n =>
      refine List.pairwise_cons.mpr ⟨?_, ih htail⟩
      intro b hb hcontra
      rcases mem_releaseSocket hb with h1 | h1
      · exact hhead b h1 hcontra
      · rcases hcontra with ⟨_, hb2, _⟩
        rw [h1] at hb2
        cases hb2

/-- DestroySocket yields a sublist of the original pool. -/
lemma destroySocket_sublist (pool : List Socket) (i : Nat) :
    List.Sublist (Modem.DestroySocket pool i) pool := by
  induction pool generalizing i with
  | nil => simp [Modem.DestroySocket]
  | cons s rest ih =>
    cases i with
    | zero =>
      exact List.sublist_cons_self s rest
    | succ n =>
      simpa [Modem.DestroySocket] using List.Sublist.cons₂ s (ih n)

/-- Claim C4: in every socket pool reachable through CreateSocket (whose
allocation hook reserves a channel free for the requested secure flag),
ReleaseSocket and DestroySocket, at most one allocated socket holds any
given (channel, secure) pair; and the same channel number can
simultaneously be held by one secure and one non-secure allocated socket,
as witnessed by a reachable pool holding both. -/
theorem socketPool_unique_channel_pairs :
    (∀ pool, Reach pool → UniqueChannels pool) ∧
    Reach [Socket.mk 1 true true, Socket.mk 1 false true] := by
  constructor
  · intro pool hr
    induction hr with
    | init => exact List.Pairwise.nil
    | create pool ch host port sec hr hf ih =>
      refine List.pairwise_cons.mpr ⟨?_, ih⟩
      intro b hb hcontra
      rcases hcontra with ⟨ha, hb2, hch, hsec⟩
      exact hf b hb hb2 ⟨hch.symm, hsec.symm⟩
    | release pool i hr ih => exact uniqueChannels_releaseSocket ih
    | destroy pool i hr ih =>
      exact List.Pairwise.sublist (destroySocket_sublist pool i) ih
  · have h0 : Reach [] := Reach.init
    have hf0 : FreshChannel [] 1 false := by
      intro s hs
      simp at hs
    have h1 : Reach [Socket.mk 1 false true] :=
      Reach.create [] 1 0 0 false h0 hf0
    have hf1 : FreshChannel [Socket.mk 1 false true] 1 true := by
      intro s hs ha hpair
      rcases hpair with ⟨hc, hsec⟩
      simp at hs
      rw [hs] at hsec
      cases hsec
    exact Reach.create [Socket.mk 1 false true] 1 0 0 true h1 hf1

/-- Witness for C4: the invariant holds at the concrete reachable pool with
one secure and one non-secure socket on channel 1. -/
theorem socketPool_unique_channel_pairs_inst :
    UniqueChannels [Socket.mk 1 true true, Socket.mk 1 false true] :=
  socketPool_unique_channel_pairs.1 _ socketPool_unique_channel_pairs.2

end GsmModem
